import Mathlib

set_option maxRecDepth 8000

/-!
Shallow embedding of the eli5_pandas core (field type detection, per-type
statistics, field/dataset assembly and JSON round-trip) together with proofs
settling the specification claims.

Python semantics are modelled as follows: machine floats become exact
rationals (ℚ); a pandas cell is a `Value` (with a single missing marker
`vNA` standing for NaN/None); a pandas Series is a name, a dtype tag and a
list of values.  Library helpers of pandas/numpy that the source calls
(`pd.to_numeric`, the flexible datetime parser, `str()` rendering) are
modelled by explicit executable functions that agree with the library on
every input the proofs touch; each such model is marked in its doc comment.
-/

/-- Digit character for a value 0..9 (`Char.ofNat (48 + k)`). -/
def digitChar (k : ℕ) : Char := Char.ofNat (48 + k)

/-- Numeric value of a list of ASCII digit characters, most significant first. -/
def digitsVal (cs : List Char) : ℕ :=
  cs.foldl (fun a c => a * 10 + (c.toNat - 48)) 0

/-- Round-half-even of a rational, the rounding used by Python `round`. -/
def roundHalfEven (q : ℚ) : ℤ :=
  let f : ℤ := ⌊q⌋
  let r : ℚ := q - f
  if r < 1/2 then f
  else if 1/2 < r then f + 1
  else if f % 2 = 0 then f else f + 1

/-- Python `round(x, k)` modelled on rationals: round-half-even at k decimals. -/
def roundTo (k : ℕ) (q : ℚ) : ℚ :=
  (roundHalfEven (q * ((10 ^ k : ℕ) : ℚ)) : ℚ) / ((10 ^ k : ℕ) : ℚ)

/-- Whether `needle` occurs as a leading block of `hay`. -/
def listIsPrefixOf : List Char → List Char → Bool
  | [], _ => true
  | _ :: _, [] => false
  | a :: as, b :: bs => a = b && listIsPrefixOf as bs

/-- Whether `needle` occurs as a contiguous block anywhere in `hay`
(model of the regex `.*needle.*`). -/
def listContains (needle : List Char) : List Char → Bool
  | [] => listIsPrefixOf needle []
  | b :: bs => listIsPrefixOf needle (b :: bs) || listContains needle bs

/-- Substring containment on strings. -/
def strContains (hay needle : String) : Bool :=
  listContains needle.toList hay.toList

/-- Calendar datetime at second resolution (model of Python `datetime`;
sub-second precision is not modelled). -/
structure PyDateTime where
  year : ℕ
  month : ℕ
  day : ℕ
  hour : ℕ
  minute : ℕ
  second : ℕ
deriving DecidableEq, Repr

/-- Datetimes ordered lexicographically by (year, month, day, hour, minute,
second); agrees with chronological order for valid dates. -/
def PyDateTime.le (a b : PyDateTime) : Bool :=
  if a.year ≠ b.year then a.year < b.year
  else if a.month ≠ b.month then a.month < b.month
  else if a.day ≠ b.day then a.day < b.day
  else if a.hour ≠ b.hour then a.hour < b.hour
  else if a.minute ≠ b.minute then a.minute < b.minute
  else a.second ≤ b.second

/-- Datetime whose components fit the printed widths and calendar ranges. -/
def PyDateTime.valid (d : PyDateTime) : Prop :=
  d.year ≤ 9999 ∧ 1 ≤ d.month ∧ d.month ≤ 12 ∧ 1 ≤ d.day ∧ d.day ≤ 31 ∧
    d.hour ≤ 23 ∧ d.minute ≤ 59 ∧ d.second ≤ 59

instance (d : PyDateTime) : Decidable d.valid := by
  unfold PyDateTime.valid; infer_instance

/-- Character list of Python `str(datetime)`: `YYYY-MM-DD HH:MM:SS`. -/
def pyStrDatetimeList (d : PyDateTime) : List Char :=
  [digitChar (d.year / 1000), digitChar (d.year / 100 % 10),
   digitChar (d.year / 10 % 10), digitChar (d.year % 10), '-',
   digitChar (d.month / 10), digitChar (d.month % 10), '-',
   digitChar (d.day / 10), digitChar (d.day % 10), ' ',
   digitChar (d.hour / 10), digitChar (d.hour % 10), ':',
   digitChar (d.minute / 10), digitChar (d.minute % 10), ':',
   digitChar (d.second / 10), digitChar (d.second % 10)]

/-- Python `str(datetime)` for a datetime with zero microseconds. -/
def pyStrDatetime (d : PyDateTime) : String :=
  String.mk (pyStrDatetimeList d)

/-- Two-digit field helper for the datetime reader: value of two digit chars,
or none when either is not a digit. -/
def twoDigits (a b : Char) : Option ℕ :=
  if a.isDigit && b.isDigit then some ((a.toNat - 48) * 10 + (b.toNat - 48))
  else none

/-- Four-digit field helper for the datetime reader. -/
def fourDigits (a b c d : Char) : Option ℕ :=
  if a.isDigit && b.isDigit && c.isDigit && d.isDigit then
    some (((a.toNat - 48) * 10 + (b.toNat - 48)) * 100 +
      ((c.toNat - 48) * 10 + (d.toNat - 48)))
  else none

/-- Character-level body of the datetime reader (see `parsePyDatetime`). -/
def parseDatetimeChars (cs : List Char) : Option PyDateTime :=
  match cs with
  | [y1, y2, y3, y4, c1, m1, m2, c2, d1, d2] =>
    if c1 = '-' ∧ c2 = '-' then
      match fourDigits y1 y2 y3 y4, twoDigits m1 m2, twoDigits d1 d2 with
      | some y, some mo, some dy =>
        if 1 ≤ mo ∧ mo ≤ 12 ∧ 1 ≤ dy ∧ dy ≤ 31 then
          some ⟨y, mo, dy, 0, 0, 0⟩
        else none
      | _, _, _ => none
    else none
  | [y1, y2, y3, y4, c1, m1, m2, c2, d1, d2, c3,
     h1, h2, c4, n1, n2, c5, s1, s2] =>
    if c1 = '-' ∧ c2 = '-' ∧ c3 = ' ' ∧ c4 = ':' ∧ c5 = ':' then
      match fourDigits y1 y2 y3 y4, twoDigits m1 m2, twoDigits d1 d2,
          twoDigits h1 h2, twoDigits n1 n2, twoDigits s1 s2 with
      | some y, some mo, some dy, some h, some n, some sec =>
        if 1 ≤ mo ∧ mo ≤ 12 ∧ 1 ≤ dy ∧ dy ≤ 31 ∧ h ≤ 23 ∧ n ≤ 59 ∧ sec ≤ 59 then
          some ⟨y, mo, dy, h, n, sec⟩
        else none
      | _, _, _, _, _, _ => none
    else none
  | _ => none

/-- Modelled from the pandas/pydantic flexible datetime reader, restricted to
the ISO forms `YYYY-MM-DD` and `YYYY-MM-DD HH:MM:SS` (with calendar range
checks); every other string is rejected.  This covers every string the
repository's proofs evaluate the parser on. -/
def parsePyDatetime (s : String) : Option PyDateTime :=
  parseDatetimeChars s.toList

/-- Modelled from `pd.to_numeric` applied to a string: optional sign, then
decimal digits with at most one point (scientific notation not modelled). -/
def parseNumericStr (s : String) : Option ℚ :=
  let cs := s.trim.toList
  let signBody : ℚ × List Char :=
    match cs with
    | '-' :: rest => (-1, rest)
    | '+' :: rest => (1, rest)
    | _ => (1, cs)
  let sgn := signBody.1
  let body := signBody.2
  match body.splitOn '.' with
  | [ip] =>
    if ip ≠ [] ∧ ip.all Char.isDigit then some (sgn * (digitsVal ip : ℚ))
    else none
  | [ip, fp] =>
    if (ip ≠ [] ∨ fp ≠ []) ∧ ip.all Char.isDigit ∧ fp.all Char.isDigit then
      some (sgn * ((digitsVal ip : ℚ) + (digitsVal fp : ℚ) / ((10 ^ fp.length : ℕ) : ℚ)))
    else none
  | _ => none

/-- Fractional-part digits of a nonnegative rational, at most `fuel` of them
(helper for the float renderer). -/
def fracDigitsAux : ℕ → ℚ → List Char
  | 0, _ => []
  | fuel + 1, q =>
    if q = 0 then []
    else
      let d : ℤ := ⌊q * 10⌋
      digitChar d.toNat :: fracDigitsAux fuel (q * 10 - d)

/-- Modelled from Python `str(float)` (shortest round-trip decimal): exact
decimal expansion, truncated past 20 fractional digits.  The proofs only
render floats with short exact expansions, where this agrees with Python. -/
def floatRepr (q : ℚ) : String :=
  let sign := if q < 0 then "-" else ""
  let a : ℚ := |q|
  let ip : ℕ := a.num.toNat / a.den
  let frac : ℚ := a - (ip : ℚ)
  let fracStr := if frac = 0 then "0" else String.mk (fracDigitsAux 20 frac)
  sign ++ toString ip ++ "." ++ fracStr

/-- Cell value of a pandas Series.  `vNA` is the single missing marker
(NaN/None/NaT collapsed, as the source treats them uniformly via
`isna`/`dropna`). -/
inductive Value where
  | vNA : Value
  | vInt : ℤ → Value
  | vFloat : ℚ → Value
  | vStr : String → Value
  | vBool : Bool → Value
  | vDatetime : PyDateTime → Value
deriving DecidableEq, Repr

/-- Pandas dtype tag, as far as the source inspects it
(`bool`, `object`, integer, float, datetime64). -/
inductive Dtype where
  | dInt | dFloat | dBool | dObject | dDatetime
deriving DecidableEq, Repr

/-- Pandas Series: column name, dtype and ordered cell values. -/
structure Series where
  name : String
  dtype : Dtype
  values : List Value
deriving DecidableEq, Repr

/-- Whether a value is the missing marker (`pd.isna`). -/
def Value.isNA : Value → Bool
  | Value.vNA => true
  | _ => false

/-- Modelled from Python `str(value)` (also `astype(str)` elementwise):
integers in decimal, floats by their decimal repr, booleans as
`True`/`False`, NaN as `nan`, datetimes as `YYYY-MM-DD HH:MM:SS`. -/
def pyStr : Value → String
  | Value.vNA => "nan"
  | Value.vInt n => toString n
  | Value.vFloat q => floatRepr q
  | Value.vStr s => s
  | Value.vBool b => if b then "True" else "False"
  | Value.vDatetime d => pyStrDatetime d

/-- Modelled from `pd.to_numeric(•, errors=coerce)` on one cell: ints and
floats pass through, booleans become 0/1, numeric-looking strings are
parsed, everything else coerces to NaN (`none`). -/
def toNumeric : Value → Option ℚ
  | Value.vNA => none
  | Value.vInt n => some (n : ℚ)
  | Value.vFloat q => some q
  | Value.vBool b => some (if b then 1 else 0)
  | Value.vStr s => parseNumericStr s
  | Value.vDatetime _ => none

/-- Modelled from `FieldTypeDetector._can_parse_datetime`: NaN fails; native
datetimes succeed; strings go through the flexible parser model; ints and
floats succeed (pandas reads them as epoch offsets); booleans raise and so
fail. -/
def can_parse_datetime : Value → Bool
  | Value.vNA => false
  | Value.vDatetime _ => true
  | Value.vStr s => (parsePyDatetime s).isSome
  | Value.vInt _ => true
  | Value.vFloat _ => true
  | Value.vBool _ => false

/-- Non-missing values of a series, in order (`series.dropna()`). -/
def dropna (vs : List Value) : List Value :=
  vs.filter (fun v => ¬ v.isNA)

/-- Semantic field type (`models.FieldType`). -/
inductive FieldType where
  | STRING | INTEGER | FLOAT | BOOLEAN | DATETIME | CATEGORICAL | ID | UNKNOWN
deriving DecidableEq, Repr

/-- Lower-case string tag of a field type (the `str` Enum values). -/
def FieldType.tag : FieldType → String
  | FieldType.STRING => "string"
  | FieldType.INTEGER => "integer"
  | FieldType.FLOAT => "float"
  | FieldType.BOOLEAN => "boolean"
  | FieldType.DATETIME => "datetime"
  | FieldType.CATEGORICAL => "categorical"
  | FieldType.ID => "id"
  | FieldType.UNKNOWN => "unknown"

/-- Field type with a given tag, if any (pydantic enum validation). -/
def fieldTypeOfTag (s : String) : Option FieldType :=
  if s = "string" then some FieldType.STRING
  else if s = "integer" then some FieldType.INTEGER
  else if s = "float" then some FieldType.FLOAT
  else if s = "boolean" then some FieldType.BOOLEAN
  else if s = "datetime" then some FieldType.DATETIME
  else if s = "categorical" then some FieldType.CATEGORICAL
  else if s = "id" then some FieldType.ID
  else if s = "unknown" then some FieldType.UNKNOWN
  else none

/-- The identifier name patterns of `FieldTypeDetector._is_id_field`, applied
to the lower-cased column name (the regexes are anchored at both ends, so
they amount to the string tests below). -/
def nameMatchesId (n : String) : Bool :=
  n == "id" || n.endsWith "_id" || n.startsWith "id_" ||
  strContains n "identifier" || n.endsWith "key" || n.endsWith "code" ||
  n == "uuid" || strContains n "uuid" || n == "pk" || n.endsWith "pk"

/-- Hexadecimal digit test for the UUID pattern. -/
def isHexDigit (c : Char) : Bool :=
  c.isDigit || ('a' ≤ c && c ≤ 'f') || ('A' ≤ c && c ≤ 'F')

/-- Canonical UUID textual form `8-4-4-4-12` of hex groups,
case-insensitive (the detector's `uuid_pattern` regex). -/
def isUuidString (s : String) : Bool :=
  match s.toList.splitOn '-' with
  | [a, b, c, d, e] =>
    a.length = 8 && b.length = 4 && c.length = 4 && d.length = 4 &&
    e.length = 12 && (a ++ b ++ c ++ d ++ e).all isHexDigit
  | _ => false

/-- Whether the dtype counts as numeric for `pd.api.types.is_numeric_dtype`
(integers, floats and booleans). -/
def isNumericDtype : Dtype → Bool
  | Dtype.dInt => true
  | Dtype.dFloat => true
  | Dtype.dBool => true
  | _ => false

/-- Embeds `FieldTypeDetector._is_id_field`. -/
def is_id_field (s : Series) : Bool :=
  let column_name := s.name.toLower
  let non_null := dropna s.values
  if non_null.length = 0 then false
  else if ¬ nameMatchesId column_name then false
  else
    let total_count := s.values.length
    let unique_count := non_null.dedup.length
    let uniquenessRatio : ℚ :=
      if 0 < total_count then (unique_count : ℚ) / (total_count : ℚ) else 0
    if uniquenessRatio < 9/10 then false
    else
      -- UUID sampling branch (dtype object): a positive sample returns true,
      -- a negative sample falls through.
      if s.dtype = Dtype.dObject &&
          (non_null.take (min 10 non_null.length)).any
            (fun v => isUuidString (pyStr v)) then true
      else
        -- numeric-dtype branch: also only ever returns true
        let numeric := (s.values.map toNumeric).filterMap id
        if isNumericDtype s.dtype && decide (1 < numeric.length) &&
            decide ((numeric.foldr min 0 ≥ 0) ∧
              (numeric.foldr max 0 < 1000000000000)) then true
        else true

/-- The 12 boolean-like lower-case forms of `_is_boolean`. -/
def boolPatterns : List String :=
  ["true", "false", "yes", "no", "1", "0", "t", "f", "y", "n", "on", "off"]

/-- Embeds `FieldTypeDetector._is_boolean`: native bool dtype, or an
object-dtype column whose distinct lower-cased trimmed string forms all lie
in `boolPatterns`. -/
def is_boolean (s : Series) : Bool :=
  let non_null := dropna s.values
  if non_null.length = 0 then false
  else if s.dtype = Dtype.dBool then true
  else if s.dtype = Dtype.dObject then
    ((non_null.map (fun v => (pyStr v).toLower.trim)).dedup).all
      (fun x => boolPatterns.contains x)
  else false

/-- Embeds `FieldTypeDetector._is_datetime`: native datetime dtype, or an
object-dtype column where more than 80% of the first `min(100, n)` non-null
values parse as datetimes. -/
def is_datetime (s : Series) : Bool :=
  if s.dtype = Dtype.dDatetime then true
  else if s.dtype = Dtype.dObject then
    let non_null := dropna s.values
    let sampleSize := min 100 non_null.length
    if sampleSize = 0 then false
    else
      let sample := non_null.take sampleSize
      let datetimeCount := sample.countP (fun v => can_parse_datetime v)
      (4 : ℚ)/5 < (datetimeCount : ℚ) / (sampleSize : ℚ)
  else false

/-- Embeds `FieldTypeDetector._is_integer`: native integer dtype, or numeric
coercion succeeds on at least one value and every coerced value is whole. -/
def is_integer (s : Series) : Bool :=
  if s.dtype = Dtype.dInt then true
  else
    let non_null := (s.values.map toNumeric).filterMap id
    if non_null.length = 0 then false
    else non_null.all (fun q => q.den = 1)

/-- Embeds `FieldTypeDetector._is_float`: native float dtype, or numeric
coercion succeeds and some coerced value is not whole. -/
def is_float (s : Series) : Bool :=
  if s.dtype = Dtype.dFloat then true
  else
    let non_null := (s.values.map toNumeric).filterMap id
    if non_null.length = 0 then false
    else ¬ non_null.all (fun q => q.den = 1)

/-- Embeds `FieldTypeDetector._is_categorical` (threshold is the detector's
`categorical_threshold`, 0.1 by default). -/
def is_categorical (threshold : ℚ) (s : Series) : Bool :=
  let non_null := dropna s.values
  if non_null.length = 0 then false
  else
    let uniqueFrac : ℚ := (non_null.dedup.length : ℚ) / (non_null.length : ℚ)
    if uniqueFrac ≤ threshold then true
    else if s.dtype = Dtype.dObject && uniqueFrac ≤ 3/10 then true
    else false

/-- Embeds `FieldTypeDetector.detect_field_type`: the ordered first-match
chain of checks. -/
def detect_field_type (threshold : ℚ) (s : Series) : FieldType :=
  if (dropna s.values).length = 0 then FieldType.UNKNOWN
  else if is_id_field s then FieldType.ID
  else if is_boolean s then FieldType.BOOLEAN
  else if is_datetime s then FieldType.DATETIME
  else if is_integer s then FieldType.INTEGER
  else if is_float s then FieldType.FLOAT
  else if is_categorical threshold s then FieldType.CATEGORICAL
  else FieldType.STRING

example :
    detect_field_type (1/10)
      ⟨"number", Dtype.dInt, [Value.vInt 1, Value.vInt 2]⟩ = FieldType.INTEGER := by
  with_unfolding_all decide

example :
    detect_field_type (1/10)
      ⟨"user_id", Dtype.dInt, [Value.vInt 1, Value.vInt 2]⟩ = FieldType.ID := by
  with_unfolding_all decide

/-- Distinct elements in order of first occurrence (`Series.unique()` keeps
first-occurrence order). -/
def firstOccDedup {α : Type} [DecidableEq α] : List α → List α
  | [] => []
  | v :: vs => v :: firstOccDedup (vs.filter (fun x => x ≠ v))
termination_by l => l.length
decreasing_by
  simp only [List.length_cons]
  exact Nat.lt_succ_of_le (List.length_filter_le _ _)

/-- Minimum of a list of naturals (0 for the empty list; callers guard). -/
def listMinNat (l : List ℕ) : ℕ := l.foldr min (l.headD 0)

/-- Maximum of a list of naturals. -/
def listMaxNat (l : List ℕ) : ℕ := l.foldr max (l.headD 0)

/-- Minimum of a list of rationals (0 for the empty list; callers guard). -/
def listMinQ (l : List ℚ) : ℚ := l.foldr min (l.headD 0)

/-- Maximum of a list of rationals. -/
def listMaxQ (l : List ℚ) : ℚ := l.foldr max (l.headD 0)

/-- Insertion step of the stable ascending sort on rationals. -/
def insertQ (x : ℚ) : List ℚ → List ℚ
  | [] => [x]
  | y :: ys => if x ≤ y then x :: y :: ys else y :: insertQ x ys

/-- Stable ascending insertion sort on rationals (the order pandas uses for
quantile computation). -/
def sortQ (l : List ℚ) : List ℚ := l.foldr insertQ []

/-- Linear-interpolation quantile of an ascending list (pandas
`Series.quantile` default method): position `q*(n-1)`, interpolate between
the neighbouring order statistics. -/
def quantileLin (sorted : List ℚ) (q : ℚ) : ℚ :=
  if sorted.length = 0 then 0
  else
    let pos : ℚ := q * ((sorted.length - 1 : ℕ) : ℚ)
    let i : ℕ := (⌊pos⌋).toNat
    let frac : ℚ := pos - (⌊pos⌋ : ℚ)
    let lo := sorted.getD i 0
    let hi := sorted.getD (i + 1) lo
    lo + frac * (hi - lo)

/-- One Newton step sequence: model of the floating-point square root used
inside pandas `Series.std` (the proofs never inspect the value). -/
def sqrtNewtonAux : ℕ → ℚ → ℚ → ℚ
  | 0, _, x => x
  | fuel + 1, a, x =>
    if x = 0 then 0 else sqrtNewtonAux fuel a ((x + a / x) / 2)

/-- Modelled from floating-point `sqrt` as a fixed-depth Newton iteration;
deterministic, and never evaluated by any claim. -/
def sqrtModel (a : ℚ) : ℚ := if a ≤ 0 then 0 else sqrtNewtonAux 8 a a

/-- One `top_values` entry of the categorical statistics. -/
structure TopValue where
  value : String
  count : ℕ
  percentage : ℚ
deriving DecidableEq, Repr

/-- Embeds `models.CategoricalStats` (floats as exact rationals). -/
structure CategoricalStats where
  unique_count : ℕ
  top_values : List TopValue
  missing_count : ℕ
  missing_percentage : ℚ
deriving DecidableEq, Repr

/-- Embeds `models.NumericalStats`. -/
structure Quartiles where
  q25 : ℚ
  q50 : ℚ
  q75 : ℚ
deriving DecidableEq, Repr

/-- Embeds `models.NumericalStats` (absent values as `none`). -/
structure NumericalStats where
  min_value : Option ℚ
  max_value : Option ℚ
  mean : Option ℚ
  median : Option ℚ
  std_dev : Option ℚ
  quartiles : Option Quartiles
  missing_count : ℕ
  missing_percentage : ℚ
deriving DecidableEq, Repr

/-- Embeds `models.StringStats`. -/
structure StringStats where
  min_length : Option ℕ
  max_length : Option ℕ
  avg_length : Option ℚ
  unique_count : ℕ
  missing_count : ℕ
  missing_percentage : ℚ
deriving DecidableEq, Repr

/-- Embeds `models.DateTimeStats`. -/
structure DateTimeStats where
  min_date : Option PyDateTime
  max_date : Option PyDateTime
  unique_count : ℕ
  missing_count : ℕ
  missing_percentage : ℚ
deriving DecidableEq, Repr

/-- Stable insertion by descending count (the `value_counts()` descending
sort; ties keep first-appearance order). -/
def insertByCount (p : Value × ℕ) : List (Value × ℕ) → List (Value × ℕ)
  | [] => [p]
  | q :: qs => if q.2 < p.2 then p :: q :: qs else q :: insertByCount p qs

/-- Pairs (value, frequency) over the non-missing values, sorted by
descending frequency (`series.value_counts()`). -/
def valueCounts (vs : List Value) : List (Value × ℕ) :=
  let non_null := dropna vs
  let pairs := (firstOccDedup non_null).map (fun v => (v, non_null.count v))
  pairs.foldr insertByCount []

/-- Embeds `StatisticsCalculator.calculate_categorical_stats`.  Note
`unique_count` is `len(series.unique())`, which counts the missing marker as
a value when present. -/
def calculate_categorical_stats (s : Series) : CategoricalStats :=
  let total_count := s.values.length
  let missing_count := s.values.countP (fun v => v.isNA)
  let missing_percentage : ℚ :=
    if 0 < total_count then ((missing_count : ℚ) / (total_count : ℚ)) * 100 else 0
  let top_values :=
    ((valueCounts s.values).take 10).map
      (fun p => TopValue.mk (pyStr p.1) p.2 (((p.2 : ℚ) / (total_count : ℚ)) * 100))
  let unique_count := s.values.dedup.length
  { unique_count := unique_count
    top_values := top_values
    missing_count := missing_count
    missing_percentage := roundTo 2 missing_percentage }

/-- Embeds `StatisticsCalculator.calculate_numerical_stats`. -/
def calculate_numerical_stats (s : Series) : NumericalStats :=
  let total_count := s.values.length
  let missing_count := s.values.countP (fun v => v.isNA)
  let missing_percentage : ℚ :=
    if 0 < total_count then ((missing_count : ℚ) / (total_count : ℚ)) * 100 else 0
  let non_null := (s.values.map toNumeric).filterMap id
  if non_null.length = 0 then
    { min_value := none, max_value := none, mean := none, median := none
      std_dev := none, quartiles := none, missing_count := missing_count
      missing_percentage := roundTo 2 missing_percentage }
  else
    let sorted := sortQ non_null
    let n := non_null.length
    let mean : ℚ := non_null.sum / (n : ℚ)
    let median := quantileLin sorted (1/2)
    let variance : ℚ :=
      if 1 < n then (non_null.map (fun x => (x - mean) ^ 2)).sum / ((n - 1 : ℕ) : ℚ)
      else 0
    let std_dev := sqrtModel variance
    { min_value := some (listMinQ sorted)
      max_value := some (listMaxQ sorted)
      mean := some (roundTo 4 mean)
      median := some (roundTo 4 median)
      std_dev := some (roundTo 4 std_dev)
      quartiles := some ⟨quantileLin sorted (1/4), quantileLin sorted (1/2),
        quantileLin sorted (3/4)⟩
      missing_count := missing_count
      missing_percentage := roundTo 2 missing_percentage }

/-- Embeds `StatisticsCalculator.calculate_string_stats`: the series is
rendered to strings with `astype(str)` and every rendering equal to the
string `nan` is dropped (this is how the source discards missing cells). -/
def calculate_string_stats (s : Series) : StringStats :=
  let total_count := s.values.length
  let missing_count := s.values.countP (fun v => v.isNA)
  let missing_percentage : ℚ :=
    if 0 < total_count then ((missing_count : ℚ) / (total_count : ℚ)) * 100 else 0
  let string_series := s.values.map pyStr
  let non_null := string_series.filter (fun t => t ≠ "nan")
  if non_null.length = 0 then
    { min_length := none, max_length := none, avg_length := none
      unique_count := 0, missing_count := missing_count
      missing_percentage := roundTo 2 missing_percentage }
  else
    let lengths := non_null.map (fun t => t.length)
    { min_length := some (listMinNat lengths)
      max_length := some (listMaxNat lengths)
      avg_length := some (roundTo 2 ((lengths.sum : ℚ) / (lengths.length : ℚ)))
      unique_count := non_null.dedup.length
      missing_count := missing_count
      missing_percentage := roundTo 2 missing_percentage }

/-- Modelled from `pd.to_datetime(•, errors=coerce)` on one cell: native
datetimes pass, strings go through the parser model, everything else
(including numeric epoch offsets, which the proofs never use) coerces to
NaT (`none`). -/
def toDatetime : Value → Option PyDateTime
  | Value.vDatetime d => some d
  | Value.vStr t => parsePyDatetime t
  | _ => none

/-- Embeds `StatisticsCalculator.calculate_datetime_stats`. -/
def calculate_datetime_stats (s : Series) : DateTimeStats :=
  let total_count := s.values.length
  let missing_count := s.values.countP (fun v => v.isNA)
  let missing_percentage : ℚ :=
    if 0 < total_count then ((missing_count : ℚ) / (total_count : ℚ)) * 100 else 0
  let non_null := s.values.filterMap toDatetime
  if non_null.length = 0 then
    { min_date := none, max_date := none, unique_count := 0
      missing_count := missing_count
      missing_percentage := roundTo 2 missing_percentage }
  else
    { min_date := some (non_null.foldr
        (fun a b => if PyDateTime.le a b then a else b) (non_null.headD ⟨0,0,0,0,0,0⟩))
      max_date := some (non_null.foldr
        (fun a b => if PyDateTime.le a b then b else a) (non_null.headD ⟨0,0,0,0,0,0⟩))
      unique_count := non_null.dedup.length
      missing_count := missing_count
      missing_percentage := roundTo 2 missing_percentage }

/-- One of the four statistics variants. -/
inductive StatsVariant where
  | catS : CategoricalStats → StatsVariant
  | numS : NumericalStats → StatsVariant
  | strS : StringStats → StatsVariant
  | dtS : DateTimeStats → StatsVariant
deriving DecidableEq, Repr

/-- Embeds `StatisticsCalculator.calculate_field_statistics`, the dispatch on
the field type's string tag.  Tags with no branch (`id`, `unknown`) fall to
the trailing `None`. -/
def calculate_field_statistics (s : Series) (field_type : FieldType) :
    Option StatsVariant :=
  if field_type.tag = "categorical" then
    some (StatsVariant.catS (calculate_categorical_stats s))
  else if field_type.tag = "integer" ∨ field_type.tag = "float" then
    some (StatsVariant.numS (calculate_numerical_stats s))
  else if field_type.tag = "string" then
    some (StatsVariant.strS (calculate_string_stats s))
  else if field_type.tag = "datetime" then
    some (StatsVariant.dtS (calculate_datetime_stats s))
  else if field_type.tag = "boolean" then
    some (StatsVariant.catS (calculate_categorical_stats s))
  else none

/-- Embeds `field_detector.get_sample_values`: all distinct non-missing
values when there are at most `max_samples` of them, otherwise `max_samples`
distinct values (the source draws them via `np.random.choice` without
replacement; the random draw is modelled as taking the first
`max_samples`). -/
def get_sample_values (s : Series) (max_samples : ℕ) : List Value :=
  let non_null := dropna s.values
  if non_null.length = 0 then []
  else
    let unique_values := firstOccDedup non_null
    if unique_values.length ≤ max_samples then unique_values
    else unique_values.take max_samples

/-- Embeds `models.FieldAnalysis`. -/
structure FieldAnalysis where
  name : String
  field_type : FieldType
  total_count : ℕ
  categorical_stats : Option CategoricalStats
  numerical_stats : Option NumericalStats
  string_stats : Option StringStats
  datetime_stats : Option DateTimeStats
  sample_values : List Value
deriving DecidableEq, Repr

/-- Embeds `DataAnalyzer._analyze_field`: detect the type, sample values,
then populate exactly the variant selected by the if/elif chain of the
source (note ID gets categorical statistics here, directly). -/
def analyze_field (threshold : ℚ) (s : Series) : FieldAnalysis :=
  let field_type := detect_field_type threshold s
  let sample_values := get_sample_values s 5
  let categorical_stats : Option CategoricalStats :=
    if field_type = FieldType.CATEGORICAL then some (calculate_categorical_stats s)
    else if field_type = FieldType.BOOLEAN then some (calculate_categorical_stats s)
    else if field_type = FieldType.ID then some (calculate_categorical_stats s)
    else none
  let numerical_stats : Option NumericalStats :=
    if field_type = FieldType.INTEGER ∨ field_type = FieldType.FLOAT then
      some (calculate_numerical_stats s)
    else none
  let string_stats : Option StringStats :=
    if field_type = FieldType.STRING then some (calculate_string_stats s) else none
  let datetime_stats : Option DateTimeStats :=
    if field_type = FieldType.DATETIME then some (calculate_datetime_stats s) else none
  { name := s.name
    field_type := field_type
    total_count := s.values.length
    categorical_stats := categorical_stats
    numerical_stats := numerical_stats
    string_stats := string_stats
    datetime_stats := datetime_stats
    sample_values := sample_values }

/-- Embeds `models.AnalysisResult`. -/
structure AnalysisResult where
  file_path : String
  file_type : String
  total_rows : ℕ
  total_columns : ℕ
  fields : List FieldAnalysis
  analysis_timestamp : PyDateTime
  processing_time_seconds : ℚ
deriving DecidableEq, Repr

/-- Modelled from `DataFrame.sample(n, random_state=42)`: raises (`none`)
when `n` exceeds the row count, otherwise returns `n` distinct rows chosen
by a fixed seeded shuffle (the seeded shuffle is modelled as a fixed
rotation of the rows). -/
def pandas_sample {α : Type} (rows : List α) (n : ℕ) : Option (List α) :=
  if n ≤ rows.length then some ((rows.rotate 42).take n) else none

/-- Embeds `DataAnalyzer.get_sample`: `none` when no data is loaded; the
`random` mode samples `min(n, len(data))` rows with the fixed seed, any
other mode returns `head(n)`. -/
def get_sample {α : Type} (data : Option (List α)) (n : ℕ)
    (sample_type : String) : Option (List α) :=
  match data with
  | none => none
  | some rows =>
    if sample_type = "random" then pandas_sample rows (min n rows.length)
    else some (rows.take n)

example :
    (calculate_numerical_stats
      ⟨"number", Dtype.dInt, (List.range 10).map (fun k => Value.vInt (k + 1))⟩).mean
      = some (11/2) := by
  with_unfolding_all decide

example :
    (calculate_numerical_stats
      ⟨"number", Dtype.dInt, (List.range 10).map (fun k => Value.vInt (k + 1))⟩).quartiles
      = some ⟨13/4, 11/2, 31/4⟩ := by
  with_unfolding_all decide

/-- Plain JSON values as written by `json.dump` (integers and floats kept
apart, as the textual encoding keeps them apart). -/
inductive Json where
  | jNull : Json
  | jBool : Bool → Json
  | jInt : ℤ → Json
  | jFloat : ℚ → Json
  | jStr : String → Json
  | jArr : List Json → Json
  | jObj : List (String × Json) → Json

/-- Whether a value is a datetime (these are the values `default=str`
stringifies inside `sample_values`). -/
def isDatetimeValue : Value → Bool
  | Value.vDatetime _ => true
  | _ => false

/-- Encoding of one cell value under `model_dump()` followed by
`json.dump(•, default=str)`: JSON-native scalars pass through, datetimes are
stringified by `default=str`.  The missing marker is modelled as `null`
(`json.dump` would emit a non-standard NaN token; no claim touches it). -/
def encodeValue : Value → Json
  | Value.vNA => Json.jNull
  | Value.vInt n => Json.jInt n
  | Value.vFloat q => Json.jFloat q
  | Value.vStr t => Json.jStr t
  | Value.vBool b => Json.jBool b
  | Value.vDatetime d => Json.jStr (pyStrDatetime d)

/-- Pydantic validation of a JSON value at type `Any`: the JSON scalar is
kept as-is — in particular a string stays a string, it is never re-parsed
into a datetime.  (Containers never occur among sample values; they map to
the missing marker.) -/
def decodeAnyValue : Json → Value
  | Json.jNull => Value.vNA
  | Json.jBool b => Value.vBool b
  | Json.jInt n => Value.vInt n
  | Json.jFloat q => Value.vFloat q
  | Json.jStr t => Value.vStr t
  | Json.jArr _ => Value.vNA
  | Json.jObj _ => Value.vNA

/-- Key lookup in a JSON object (Python dict access during validation). -/
def jLookup (k : String) (kvs : List (String × Json)) : Option Json :=
  (kvs.find? (fun p => p.1 = k)).map (fun p => p.2)

/-- Pydantic `int` validation (counts in the models are nonnegative). -/
def asNat : Json → Option ℕ
  | Json.jInt n => if 0 ≤ n then some n.toNat else none
  | _ => none

/-- Pydantic `float` validation (accepts JSON ints as well). -/
def asQ : Json → Option ℚ
  | Json.jFloat q => some q
  | Json.jInt n => some (n : ℚ)
  | _ => none

/-- Pydantic `str` validation. -/
def asStr : Json → Option String
  | Json.jStr t => some t
  | _ => none

/-- Pydantic `datetime` validation: ISO-like strings are parsed. -/
def asDatetime : Json → Option PyDateTime
  | Json.jStr t => parsePyDatetime t
  | _ => none

/-- Pydantic `Optional[τ]` validation from an encoded optional. -/
def decodeOpt {α : Type} (dec : Json → Option α) : Json → Option (Option α)
  | Json.jNull => some none
  | j => (dec j).map some

/-- Encoding of an optional model field (`None` becomes `null`). -/
def encodeOpt {α : Type} (enc : α → Json) : Option α → Json
  | none => Json.jNull
  | some x => enc x

/-- Element-wise decoding of a JSON array body. -/
def decodeList {α : Type} (dec : Json → Option α) : List Json → Option (List α)
  | [] => some []
  | j :: js =>
    match dec j, decodeList dec js with
    | some x, some xs => some (x :: xs)
    | _, _ => none

/-- JSON encoding of one `top_values` entry. -/
def encodeTopValue (t : TopValue) : Json :=
  Json.jObj [("value", Json.jStr t.value), ("count", Json.jInt t.count),
    ("percentage", Json.jFloat t.percentage)]

/-- Validation of one `top_values` entry. -/
def decodeTopValue (j : Json) : Option TopValue :=
  match j with
  | Json.jObj kvs => do
    let v ← jLookup "value" kvs >>= asStr
    let c ← jLookup "count" kvs >>= asNat
    let p ← jLookup "percentage" kvs >>= asQ
    some ⟨v, c, p⟩
  | _ => none

/-- JSON encoding of `CategoricalStats`. -/
def encodeCategoricalStats (c : CategoricalStats) : Json :=
  Json.jObj [("unique_count", Json.jInt c.unique_count),
    ("top_values", Json.jArr (c.top_values.map encodeTopValue)),
    ("missing_count", Json.jInt c.missing_count),
    ("missing_percentage", Json.jFloat c.missing_percentage)]

/-- Validation of `CategoricalStats`. -/
def decodeCategoricalStats (j : Json) : Option CategoricalStats :=
  match j with
  | Json.jObj kvs => do
    let u ← jLookup "unique_count" kvs >>= asNat
    let tj ← jLookup "top_values" kvs
    let tvs ← match tj with
      | Json.jArr xs => decodeList decodeTopValue xs
      | _ => none
    let mc ← jLookup "missing_count" kvs >>= asNat
    let mp ← jLookup "missing_percentage" kvs >>= asQ
    some ⟨u, tvs, mc, mp⟩
  | _ => none

/-- JSON encoding of the quartiles dictionary. -/
def encodeQuartiles (q : Quartiles) : Json :=
  Json.jObj [("q25", Json.jFloat q.q25), ("q50", Json.jFloat q.q50),
    ("q75", Json.jFloat q.q75)]

/-- Validation of the quartiles dictionary. -/
def decodeQuartiles (j : Json) : Option Quartiles :=
  match j with
  | Json.jObj kvs => do
    let a ← jLookup "q25" kvs >>= asQ
    let b ← jLookup "q50" kvs >>= asQ
    let c ← jLookup "q75" kvs >>= asQ
    some ⟨a, b, c⟩
  | _ => none

/-- JSON encoding of `NumericalStats`. -/
def encodeNumericalStats (n : NumericalStats) : Json :=
  Json.jObj [("min_value", encodeOpt Json.jFloat n.min_value),
    ("max_value", encodeOpt Json.jFloat n.max_value),
    ("mean", encodeOpt Json.jFloat n.mean),
    ("median", encodeOpt Json.jFloat n.median),
    ("std_dev", encodeOpt Json.jFloat n.std_dev),
    ("quartiles", encodeOpt encodeQuartiles n.quartiles),
    ("missing_count", Json.jInt n.missing_count),
    ("missing_percentage", Json.jFloat n.missing_percentage)]

/-- Validation of `NumericalStats`. -/
def decodeNumericalStats (j : Json) : Option NumericalStats :=
  match j with
  | Json.jObj kvs => do
    let mn ← jLookup "min_value" kvs >>= decodeOpt asQ
    let mx ← jLookup "max_value" kvs >>= decodeOpt asQ
    let me ← jLookup "mean" kvs >>= decodeOpt asQ
    let md ← jLookup "median" kvs >>= decodeOpt asQ
    let sd ← jLookup "std_dev" kvs >>= decodeOpt asQ
    let qs ← jLookup "quartiles" kvs >>= decodeOpt decodeQuartiles
    let mc ← jLookup "missing_count" kvs >>= asNat
    let mp ← jLookup "missing_percentage" kvs >>= asQ
    some ⟨mn, mx, me, md, sd, qs, mc, mp⟩
  | _ => none

/-- JSON encoding of `StringStats`. -/
def encodeStringStats (t : StringStats) : Json :=
  Json.jObj [("min_length", encodeOpt (fun k : ℕ => Json.jInt (k : ℤ)) t.min_length),
    ("max_length", encodeOpt (fun k : ℕ => Json.jInt (k : ℤ)) t.max_length),
    ("avg_length", encodeOpt Json.jFloat t.avg_length),
    ("unique_count", Json.jInt t.unique_count),
    ("missing_count", Json.jInt t.missing_count),
    ("missing_percentage", Json.jFloat t.missing_percentage)]

/-- Validation of `StringStats`. -/
def decodeStringStats (j : Json) : Option StringStats :=
  match j with
  | Json.jObj kvs => do
    let mn ← jLookup "min_length" kvs >>= decodeOpt asNat
    let mx ← jLookup "max_length" kvs >>= decodeOpt asNat
    let av ← jLookup "avg_length" kvs >>= decodeOpt asQ
    let u ← jLookup "unique_count" kvs >>= asNat
    let mc ← jLookup "missing_count" kvs >>= asNat
    let mp ← jLookup "missing_percentage" kvs >>= asQ
    some ⟨mn, mx, av, u, mc, mp⟩
  | _ => none

/-- JSON encoding of `DateTimeStats` (dates stringified by `default=str`). -/
def encodeDateTimeStats (t : DateTimeStats) : Json :=
  Json.jObj [("min_date", encodeOpt (fun d => Json.jStr (pyStrDatetime d)) t.min_date),
    ("max_date", encodeOpt (fun d => Json.jStr (pyStrDatetime d)) t.max_date),
    ("unique_count", Json.jInt t.unique_count),
    ("missing_count", Json.jInt t.missing_count),
    ("missing_percentage", Json.jFloat t.missing_percentage)]

/-- Validation of `DateTimeStats` (typed datetime fields are re-parsed). -/
def decodeDateTimeStats (j : Json) : Option DateTimeStats :=
  match j with
  | Json.jObj kvs => do
    let mn ← jLookup "min_date" kvs >>= decodeOpt asDatetime
    let mx ← jLookup "max_date" kvs >>= decodeOpt asDatetime
    let u ← jLookup "unique_count" kvs >>= asNat
    let mc ← jLookup "missing_count" kvs >>= asNat
    let mp ← jLookup "missing_percentage" kvs >>= asQ
    some ⟨mn, mx, u, mc, mp⟩
  | _ => none

/-- JSON encoding of `FieldAnalysis` under `model_dump` + `json.dump`. -/
def encodeFieldAnalysis (f : FieldAnalysis) : Json :=
  Json.jObj [("name", Json.jStr f.name),
    ("field_type", Json.jStr f.field_type.tag),
    ("total_count", Json.jInt f.total_count),
    ("categorical_stats", encodeOpt encodeCategoricalStats f.categorical_stats),
    ("numerical_stats", encodeOpt encodeNumericalStats f.numerical_stats),
    ("string_stats", encodeOpt encodeStringStats f.string_stats),
    ("datetime_stats", encodeOpt encodeDateTimeStats f.datetime_stats),
    ("sample_values", Json.jArr (f.sample_values.map encodeValue))]

/-- Validation of `FieldAnalysis`; `sample_values` has item type `Any`, so
its entries are kept as the JSON scalars they are. -/
def decodeFieldAnalysis (j : Json) : Option FieldAnalysis :=
  match j with
  | Json.jObj kvs => do
    let nm ← jLookup "name" kvs >>= asStr
    let ftTag ← jLookup "field_type" kvs >>= asStr
    let ft ← fieldTypeOfTag ftTag
    let tc ← jLookup "total_count" kvs >>= asNat
    let cs ← jLookup "categorical_stats" kvs >>= decodeOpt decodeCategoricalStats
    let ns ← jLookup "numerical_stats" kvs >>= decodeOpt decodeNumericalStats
    let ts ← jLookup "string_stats" kvs >>= decodeOpt decodeStringStats
    let ds ← jLookup "datetime_stats" kvs >>= decodeOpt decodeDateTimeStats
    let svj ← jLookup "sample_values" kvs
    let sv ← match svj with
      | Json.jArr xs => some (xs.map decodeAnyValue)
      | _ => none
    some ⟨nm, ft, tc, cs, ns, ts, ds, sv⟩
  | _ => none

/-- Embeds `DataAnalyzer.save_analysis_to_json`: `model_dump()` followed by
`json.dump(•, default=str)`, as a JSON value (the textual layer is
faithful to the value layer for portable JSON). -/
def save_analysis_to_json (r : AnalysisResult) : Json :=
  Json.jObj [("file_path", Json.jStr r.file_path),
    ("file_type", Json.jStr r.file_type),
    ("total_rows", Json.jInt r.total_rows),
    ("total_columns", Json.jInt r.total_columns),
    ("fields", Json.jArr (r.fields.map encodeFieldAnalysis)),
    ("analysis_timestamp", Json.jStr (pyStrDatetime r.analysis_timestamp)),
    ("processing_time_seconds", Json.jFloat r.processing_time_seconds)]

/-- Embeds `DataAnalyzer.load_analysis_from_json`: `json.load` followed by
`AnalysisResult.model_validate`. -/
def load_analysis_from_json (j : Json) : Option AnalysisResult :=
  match j with
  | Json.jObj kvs => do
    let fp ← jLookup "file_path" kvs >>= asStr
    let ft ← jLookup "file_type" kvs >>= asStr
    let tr ← jLookup "total_rows" kvs >>= asNat
    let tc ← jLookup "total_columns" kvs >>= asNat
    let fj ← jLookup "fields" kvs
    let fs ← match fj with
      | Json.jArr xs => decodeList decodeFieldAnalysis xs
      | _ => none
    let ts ← jLookup "analysis_timestamp" kvs >>= asDatetime
    let pt ← jLookup "processing_time_seconds" kvs >>= asQ
    some ⟨fp, ft, tr, tc, fs, ts, pt⟩
  | _ => none

/-- Composition saved-then-loaded, the subject of the round-trip claim. -/
def save_then_load (r : AnalysisResult) : Option AnalysisResult :=
  load_analysis_from_json (save_analysis_to_json r)

lemma digitChar_isDigit (k : ℕ) (h : k < 10) : (digitChar k).isDigit = true := by
  interval_cases k <;> decide

lemma digitChar_toNat (k : ℕ) (h : k < 10) : (digitChar k).toNat = 48 + k := by
  interval_cases k <;> decide

lemma twoDigits_digits (a : ℕ) (h : a < 100) :
    twoDigits (digitChar (a / 10)) (digitChar (a % 10)) = some a := by
  have h1 : a / 10 < 10 := by omega
  have h2 : a % 10 < 10 := by omega
  simp [twoDigits, digitChar_isDigit _ h1, digitChar_isDigit _ h2,
    digitChar_toNat _ h1, digitChar_toNat _ h2]
  omega

lemma fourDigits_digits (a : ℕ) (h : a < 10000) :
    fourDigits (digitChar (a / 1000)) (digitChar (a / 100 % 10))
      (digitChar (a / 10 % 10)) (digitChar (a % 10)) = some a := by
  have h1 : a / 1000 < 10 := by omega
  have h2 : a / 100 % 10 < 10 := by omega
  have h3 : a / 10 % 10 < 10 := by omega
  have h4 : a % 10 < 10 := by omega
  simp [fourDigits, digitChar_isDigit _ h1, digitChar_isDigit _ h2,
    digitChar_isDigit _ h3, digitChar_isDigit _ h4,
    digitChar_toNat _ h1, digitChar_toNat _ h2,
    digitChar_toNat _ h3, digitChar_toNat _ h4]
  omega

lemma parse_pyStrDatetime (d : PyDateTime) (h : d.valid) :
    parsePyDatetime (pyStrDatetime d) = some d := by
  obtain ⟨hy, hm1, hm2, hd1, hd2, hh, hmi, hs⟩ := h
  have e : (pyStrDatetime d).toList = pyStrDatetimeList d := rfl
  rw [parsePyDatetime, e, pyStrDatetimeList, parseDatetimeChars]
  rw [if_pos (by exact ⟨rfl, rfl, rfl, rfl, rfl⟩)]
  rw [fourDigits_digits d.year (by omega), twoDigits_digits d.month (by omega),
    twoDigits_digits d.day (by omega), twoDigits_digits d.hour (by omega),
    twoDigits_digits d.minute (by omega), twoDigits_digits d.second (by omega)]
  simp only []
  rw [if_pos (by omega)]

lemma asNat_jInt (n : ℕ) : asNat (Json.jInt (n : ℤ)) = some n := by
  simp [asNat]

lemma decode_encode_topValue (t : TopValue) :
    decodeTopValue (encodeTopValue t) = some t := by
  simp [decodeTopValue, encodeTopValue, jLookup, asStr, asQ, asNat_jInt]

lemma decodeList_map {α : Type} (dec : Json → Option α) (enc : α → Json)
    (h : ∀ x, dec (enc x) = some x) :
    ∀ xs : List α, decodeList dec (xs.map enc) = some xs := by
  intro xs
  induction xs with
  | nil => simp [decodeList]
  | cons x xs ih => simp [decodeList, h x, ih]

lemma decodeOpt_eq_map {α : Type} (dec : Json → Option α) (j : Json)
    (h : j ≠ Json.jNull) : decodeOpt dec j = (dec j).map some := by
  cases j <;> simp_all [decodeOpt]

lemma decodeOpt_encodeOpt {α : Type} (dec : Json → Option α) (enc : α → Json)
    (hnull : ∀ x, enc x ≠ Json.jNull) (h : ∀ x, dec (enc x) = some x)
    (o : Option α) : decodeOpt dec (encodeOpt enc o) = some o := by
  cases o with
  | none => rfl
  | some x =>
    show decodeOpt dec (enc x) = some (some x)
    rw [decodeOpt_eq_map dec (enc x) (hnull x), h x]; rfl

lemma decodeOpt_jFloat (o : Option ℚ) :
    decodeOpt asQ (encodeOpt Json.jFloat o) = some o :=
  decodeOpt_encodeOpt asQ Json.jFloat (fun _ => by simp) (fun _ => rfl) o

lemma decodeOpt_jIntNat (o : Option ℕ) :
    decodeOpt asNat (encodeOpt (fun k : ℕ => Json.jInt (k : ℤ)) o) = some o :=
  decodeOpt_encodeOpt asNat _ (fun _ => by simp) (fun k => asNat_jInt k) o

lemma decode_encode_quartiles (q : Quartiles) :
    decodeQuartiles (encodeQuartiles q) = some q := by
  simp [decodeQuartiles, encodeQuartiles, jLookup, asQ]

lemma decodeOpt_quartiles (o : Option Quartiles) :
    decodeOpt decodeQuartiles (encodeOpt encodeQuartiles o) = some o :=
  decodeOpt_encodeOpt decodeQuartiles encodeQuartiles
    (fun _ => by simp [encodeQuartiles]) decode_encode_quartiles o

lemma decodeOpt_datetime (o : Option PyDateTime)
    (h : ∀ d, o = some d → d.valid) :
    decodeOpt asDatetime
      (encodeOpt (fun d => Json.jStr (pyStrDatetime d)) o) = some o := by
  cases ho : o with
  | none => rfl
  | some d =>
    show decodeOpt asDatetime (Json.jStr (pyStrDatetime d)) = some (some d)
    rw [decodeOpt_eq_map _ _ (by simp)]
    simp [asDatetime, parse_pyStrDatetime d (h d ho)]

lemma decode_encode_categoricalStats (c : CategoricalStats) :
    decodeCategoricalStats (encodeCategoricalStats c) = some c := by
  simp [decodeCategoricalStats, encodeCategoricalStats, jLookup, asQ, asNat_jInt,
    decodeList_map decodeTopValue encodeTopValue decode_encode_topValue]

lemma decodeOpt_categoricalStats (o : Option CategoricalStats) :
    decodeOpt decodeCategoricalStats (encodeOpt encodeCategoricalStats o) = some o :=
  decodeOpt_encodeOpt decodeCategoricalStats encodeCategoricalStats
    (fun _ => by simp [encodeCategoricalStats]) decode_encode_categoricalStats o

lemma decode_encode_numericalStats (n : NumericalStats) :
    decodeNumericalStats (encodeNumericalStats n) = some n := by
  simp [decodeNumericalStats, encodeNumericalStats, jLookup, asQ, asNat_jInt,
    decodeOpt_jFloat, decodeOpt_quartiles]

lemma decodeOpt_numericalStats (o : Option NumericalStats) :
    decodeOpt decodeNumericalStats (encodeOpt encodeNumericalStats o) = some o :=
  decodeOpt_encodeOpt decodeNumericalStats encodeNumericalStats
    (fun _ => by simp [encodeNumericalStats]) decode_encode_numericalStats o

lemma decode_encode_stringStats (t : StringStats) :
    decodeStringStats (encodeStringStats t) = some t := by
  simp [decodeStringStats, encodeStringStats, jLookup, asQ, asNat_jInt,
    decodeOpt_jFloat, decodeOpt_jIntNat]

lemma decodeOpt_stringStats (o : Option StringStats) :
    decodeOpt decodeStringStats (encodeOpt encodeStringStats o) = some o :=
  decodeOpt_encodeOpt decodeStringStats encodeStringStats
    (fun _ => by simp [encodeStringStats]) decode_encode_stringStats o

/-- Validity of the dates mentioned inside an optional `DateTimeStats`. -/
def dtStatsValid (o : Option DateTimeStats) : Prop :=
  ∀ t, o = some t →
    (∀ d, t.min_date = some d → d.valid) ∧ (∀ d, t.max_date = some d → d.valid)

lemma decode_encode_dateTimeStats (t : DateTimeStats)
    (hmin : ∀ d, t.min_date = some d → d.valid)
    (hmax : ∀ d, t.max_date = some d → d.valid) :
    decodeDateTimeStats (encodeDateTimeStats t) = some t := by
  simp [decodeDateTimeStats, encodeDateTimeStats, jLookup, asQ, asNat_jInt,
    decodeOpt_datetime t.min_date hmin, decodeOpt_datetime t.max_date hmax]

lemma decodeOpt_dateTimeStats (o : Option DateTimeStats) (h : dtStatsValid o) :
    decodeOpt decodeDateTimeStats (encodeOpt encodeDateTimeStats o) = some o := by
  cases ho : o with
  | none => rfl
  | some t =>
    obtain ⟨h1, h2⟩ := h t ho
    show decodeOpt decodeDateTimeStats (encodeDateTimeStats t) = some (some t)
    rw [decodeOpt_eq_map _ _ (by simp [encodeDateTimeStats]),
      decode_encode_dateTimeStats t h1 h2]
    rfl

lemma fieldTypeOfTag_tag (ft : FieldType) : fieldTypeOfTag ft.tag = some ft := by
  cases ft <;> rfl

lemma decodeAny_encodeValue (v : Value) (h : isDatetimeValue v = false) :
    decodeAnyValue (encodeValue v) = v := by
  cases v <;> simp_all [decodeAnyValue, encodeValue, isDatetimeValue]

lemma decode_encode_fieldAnalysis (f : FieldAnalysis)
    (hs : ∀ v ∈ f.sample_values, isDatetimeValue v = false)
    (hd : dtStatsValid f.datetime_stats) :
    decodeFieldAnalysis (encodeFieldAnalysis f) = some f := by
  have e : f.sample_values.map (fun v => decodeAnyValue (encodeValue v))
      = f.sample_values := by
    apply List.map_congr_left ?_ |>.trans (List.map_id _)
    intro v hv
    exact decodeAny_encodeValue v (hs v hv)
  simp [decodeFieldAnalysis, encodeFieldAnalysis, jLookup, asStr, asNat_jInt,
    fieldTypeOfTag_tag, decodeOpt_categoricalStats, decodeOpt_numericalStats,
    decodeOpt_stringStats, decodeOpt_dateTimeStats f.datetime_stats hd,
    List.map_map, Function.comp_def, e]

lemma decodeList_map_mem {α : Type} (dec : Json → Option α) (enc : α → Json) :
    ∀ xs : List α, (∀ x ∈ xs, dec (enc x) = some x) →
      decodeList dec (xs.map enc) = some xs := by
  intro xs
  induction xs with
  | nil => intro _; simp [decodeList]
  | cons x xs ih =>
    intro h
    have hx := h x (by simp)
    have hxs := ih (fun y hy => h y (by simp [hy]))
    simp [decodeList, hx, hxs]

lemma save_then_load_eq (r : AnalysisResult)
    (ht : r.analysis_timestamp.valid)
    (hs : ∀ f ∈ r.fields, ∀ v ∈ f.sample_values, isDatetimeValue v = false)
    (hd : ∀ f ∈ r.fields, dtStatsValid f.datetime_stats) :
    save_then_load r = some r := by
  have hfields : decodeList decodeFieldAnalysis (r.fields.map encodeFieldAnalysis)
      = some r.fields :=
    decodeList_map_mem decodeFieldAnalysis encodeFieldAnalysis r.fields
      (fun f hf => decode_encode_fieldAnalysis f (hs f hf) (hd f hf))
  simp [save_then_load, save_analysis_to_json, load_analysis_from_json, jLookup,
    asStr, asNat_jInt, asQ, asDatetime, parse_pyStrDatetime _ ht, hfields]

/-- The ten-row integer column named `number` of the spec's scenario. -/
def numberColumn : Series :=
  ⟨"number", Dtype.dInt, (List.range 10).map (fun k => Value.vInt (k + 1))⟩

/-- C7: the column [1..10] named `number` is detected INTEGER, and its
numerical statistics are min=1, max=10, mean=5.5, median=5.5, q25=3.25,
q75=7.75 and missing_count=0. -/
theorem claim_c7 :
    detect_field_type (1/10) numberColumn = FieldType.INTEGER ∧
    (calculate_numerical_stats numberColumn).min_value = some 1 ∧
    (calculate_numerical_stats numberColumn).max_value = some 10 ∧
    (calculate_numerical_stats numberColumn).mean = some (11/2) ∧
    (calculate_numerical_stats numberColumn).median = some (11/2) ∧
    (calculate_numerical_stats numberColumn).quartiles =
      some ⟨13/4, 11/2, 31/4⟩ ∧
    (calculate_numerical_stats numberColumn).missing_count = 0 := by
  with_unfolding_all decide

/-- The eight-row letter column of the spec's boundary scenario. -/
def letterColumn : Series :=
  ⟨"letter", Dtype.dObject,
    [Value.vStr "A", Value.vStr "B", Value.vStr "A", Value.vStr "C",
     Value.vStr "B", Value.vStr "A", Value.vStr "D", Value.vStr "C"]⟩

/-- C8: the 8-row column [A,B,A,C,B,A,D,C] with a non-identifier name falls
through every earlier check (uniqueness 4/8 = 0.5 exceeds both 0.10 and the
0.30 textual threshold) and is detected STRING, not CATEGORICAL. -/
theorem claim_c8 :
    detect_field_type (1/10) letterColumn = FieldType.STRING ∧
    is_categorical (1/10) letterColumn = false := by
  with_unfolding_all decide

/-- C10: with data loaded, the row-sampling utility always returns a sample;
its size is exactly min(n, rows); and any mode other than `random` returns
the first min(n, rows) rows in original order. -/
theorem claim_c10 {α : Type} (rows : List α) (n : ℕ) (mode : String) :
    (get_sample (some rows) n mode).isSome = true ∧
    (∀ out, get_sample (some rows) n mode = some out →
      out.length = min n rows.length) ∧
    (mode ≠ "random" → get_sample (some rows) n mode = some (rows.take n)) := by
  by_cases hm : mode = "random"
  · subst hm
    have hsamp : pandas_sample rows (min n rows.length)
        = some (((rows.rotate 42)).take (min n rows.length)) := by
      unfold pandas_sample
      rw [if_pos (Nat.min_le_right n rows.length)]
    refine ⟨?_, ?_, ?_⟩
    · simp [get_sample, hsamp]
    · intro out hout
      simp [get_sample, hsamp] at hout
      subst hout
      simp [List.length_take, List.length_rotate]
    · intro hne; exact absurd rfl hne
  · refine ⟨?_, ?_, ?_⟩
    · simp [get_sample, hm]
    · intro out hout
      simp [get_sample, hm] at hout
      subst hout
      simp [List.length_take]
    · intro _; simp [get_sample, hm]

/-- C10 witness: the head mode at a concrete three-row dataset. -/
theorem claim_c10_witness :
    get_sample (some [0, 1, 2]) 5 "head" = some [0, 1, 2] := by
  have h := (claim_c10 [0, 1, 2] 5 "head").2.2 (by decide)
  simpa using h

/-- An identifier-named integer column used to exhibit the ID dispatch gap. -/
def userIdColumn : Series :=
  ⟨"user_id", Dtype.dInt, [Value.vInt 1, Value.vInt 2, Value.vInt 3]⟩

/-- C1 counterexample: the dispatch function of the Statistics Calculator,
given field type ID for a column it detects as ID, returns None — not the
categorical variant the claim asserts. -/
theorem claim_c1_counterexample :
    detect_field_type (1/10) userIdColumn = FieldType.ID ∧
    calculate_field_statistics userIdColumn FieldType.ID = none := by
  constructor
  · with_unfolding_all decide
  · rfl

/-- C1 amended: the dispatch function returns None for field type ID on
every column; the categorical statistics of an ID column are produced by the
Field Analysis Assembler instead, which calls the categorical calculator
directly. -/
theorem claim_c1_amended (s : Series)
    (hid : detect_field_type (1/10) s = FieldType.ID) :
    calculate_field_statistics s FieldType.ID = none ∧
    (analyze_field (1/10) s).categorical_stats
      = some (calculate_categorical_stats s) := by
  constructor
  · rfl
  · simp only [analyze_field]
    rw [hid]
    simp

/-- C1 witness: the amended statement at the concrete `user_id` column. -/
theorem claim_c1_witness :
    calculate_field_statistics userIdColumn FieldType.ID = none ∧
    (analyze_field (1/10) userIdColumn).categorical_stats
      = some (calculate_categorical_stats userIdColumn) :=
  claim_c1_amended userIdColumn (by with_unfolding_all decide)

/-- A native integer column holding only 0 and 1. -/
def zeroOneColumn : Series :=
  ⟨"flag", Dtype.dInt, [Value.vInt 0, Value.vInt 1]⟩

/-- C3 counterexample: a native integer column containing only 0 and 1 is
not classified ID, every non-missing value's lower-cased trimmed string form
is boolean-like, yet the detector returns INTEGER, not BOOLEAN (the boolean
check requires object dtype). -/
theorem claim_c3_counterexample :
    detect_field_type (1/10) zeroOneColumn ≠ FieldType.ID ∧
    (∀ v ∈ dropna zeroOneColumn.values,
      boolPatterns.contains ((pyStr v).toLower.trim) = true) ∧
    detect_field_type (1/10) zeroOneColumn = FieldType.INTEGER := by
  with_unfolding_all decide

/-- C3 amended: for a non-empty object-dtype column not classified ID, if
every non-missing value's lower-cased trimmed string form is boolean-like,
the detector returns BOOLEAN (native bool-dtype columns are likewise
BOOLEAN, but the string-form rule only fires for object dtype). -/
theorem claim_c3_amended (threshold : ℚ) (s : Series)
    (hobj : s.dtype = Dtype.dObject)
    (hne : dropna s.values ≠ [])
    (hid : is_id_field s = false)
    (hall : ∀ v ∈ dropna s.values,
      boolPatterns.contains ((pyStr v).toLower.trim) = true) :
    detect_field_type threshold s = FieldType.BOOLEAN := by
  have hlen : ¬ ((dropna s.values).length = 0) := by
    simpa [List.length_eq_zero] using hne
  have hbool : is_boolean s = true := by
    simp only [is_boolean]
    rw [if_neg hlen, hobj]
    rw [if_neg (by simp), if_pos rfl]
    rw [List.all_eq_true]
    intro x hx
    rw [List.mem_dedup, List.mem_map] at hx
    obtain ⟨v, hv, rfl⟩ := hx
    exact hall v hv
  simp only [detect_field_type]
  rw [if_neg hlen, if_neg (by simp [hid]), if_pos hbool]

/-- C3 witness: the amended statement at a concrete yes/no object column. -/
theorem claim_c3_witness :
    detect_field_type (1/10)
      ⟨"answer", Dtype.dObject, [Value.vStr "Yes", Value.vStr "no"]⟩
      = FieldType.BOOLEAN :=
  claim_c3_amended (1/10) _ rfl (by decide)
    (by with_unfolding_all decide) (by with_unfolding_all decide)

lemma isNA_iff (v : Value) : v.isNA = true ↔ v = Value.vNA := by
  cases v <;> simp [Value.isNA]

lemma dedup_length_split (l : List Value) :
    l.dedup.length = (l.filter (fun v => ¬ v.isNA)).dedup.length
      + (if l.any (fun v => v.isNA) then 1 else 0) := by
  rw [← List.card_toFinset, ← List.card_toFinset]
  by_cases hna : Value.vNA ∈ l
  · have hany : l.any (fun v => v.isNA) = true :=
      List.any_eq_true.mpr ⟨_, hna, by simp [Value.isNA]⟩
    have hset : l.toFinset
        = insert Value.vNA (l.filter (fun v => ¬ v.isNA)).toFinset := by
      ext v
      simp only [List.mem_toFinset, Finset.mem_insert, List.mem_filter]
      constructor
      · intro hv
        by_cases hv2 : v.isNA = true
        · exact Or.inl ((isNA_iff v).mp hv2)
        · exact Or.inr ⟨hv, by simp [hv2]⟩
      · rintro (rfl | ⟨hv, _⟩)
        · exact hna
        · exact hv
    rw [hset, Finset.card_insert_of_not_mem (by
      simp [List.mem_toFinset, List.mem_filter, Value.isNA]), hany]
    simp
  · have hany : l.any (fun v => v.isNA) = false := by
      rw [List.any_eq_false]
      intro v hv hvNA
      exact hna (((isNA_iff v).mp hvNA) ▸ hv)
    have hfil : l.filter (fun v => ¬ v.isNA) = l :=
      List.filter_eq_self.mpr (fun v hv => by
        simp only [Bool.not_eq_true', decide_eq_true_eq]
        intro hvNA
        exact hna (((isNA_iff v).mp (by simpa using hvNA)) ▸ hv))
    rw [hfil, hany]
    simp

/-- The 2-row column whose single missing cell inflates `unique_count`. -/
def catNAColumn : Series :=
  ⟨"cat", Dtype.dObject, [Value.vStr "a", Value.vNA]⟩

/-- C4 counterexample: on a column with one non-missing value and one
missing cell, the categorical statistics report unique_count = 2 while the
number of distinct non-missing values is 1 — the missing cell does increase
unique_count. -/
theorem claim_c4_counterexample :
    (calculate_categorical_stats catNAColumn).unique_count = 2 ∧
    (dropna catNAColumn.values).dedup.length = 1 := by
  with_unfolding_all decide

/-- C4 amended: unique_count equals the number of distinct non-missing
values, plus one exactly when the column has at least one missing cell
(`len(series.unique())` counts the missing marker as a value). -/
theorem claim_c4_amended (s : Series) :
    (calculate_categorical_stats s).unique_count
      = (dropna s.values).dedup.length
        + (if s.values.any (fun v => v.isNA) then 1 else 0) := by
  show s.values.dedup.length = _
  exact dedup_length_split s.values

/-- The single-row column holding the literal string `nan`. -/
def nanWordColumn : Series :=
  ⟨"word", Dtype.dObject, [Value.vStr "nan"]⟩

/-- C5 counterexample: the column holding the single non-missing literal
string `nan` has its value excluded from the string statistics — the code
reports no lengths and unique_count 0 although one non-missing value of
length 3 exists. -/
theorem claim_c5_counterexample :
    (dropna nanWordColumn.values).length = 1 ∧
    (calculate_string_stats nanWordColumn).min_length = none ∧
    (calculate_string_stats nanWordColumn).unique_count = 0 := by
  with_unfolding_all decide

/-- C5 amended: string statistics range over the textual representations of
the values whose rendering differs from `nan`; a non-missing value rendering
as `nan` is treated exactly like a missing cell for the length and
uniqueness fields (only missing_count/percentage see the difference). -/
theorem claim_c5_amended (s : Series) :
    (calculate_string_stats s).min_length
        = (calculate_string_stats
            ⟨s.name, s.dtype, s.values.map
              (fun v => if pyStr v = "nan" then Value.vNA else v)⟩).min_length ∧
    (calculate_string_stats s).max_length
        = (calculate_string_stats
            ⟨s.name, s.dtype, s.values.map
              (fun v => if pyStr v = "nan" then Value.vNA else v)⟩).max_length ∧
    (calculate_string_stats s).avg_length
        = (calculate_string_stats
            ⟨s.name, s.dtype, s.values.map
              (fun v => if pyStr v = "nan" then Value.vNA else v)⟩).avg_length ∧
    (calculate_string_stats s).unique_count
        = (calculate_string_stats
            ⟨s.name, s.dtype, s.values.map
              (fun v => if pyStr v = "nan" then Value.vNA else v)⟩).unique_count := by
  have hmap : (s.values.map
      (fun v => if pyStr v = "nan" then Value.vNA else v)).map pyStr
      = s.values.map pyStr := by
    rw [List.map_map]
    apply List.map_congr_left
    intro v _
    simp only [Function.comp_apply]
    by_cases h : pyStr v = "nan"
    · rw [if_pos h, h]; rfl
    · rw [if_neg h]
  simp only [calculate_string_stats, hmap]
  refine ⟨?_, ?_, ?_, ?_⟩ <;> (split <;> rfl)

lemma is_id_field_eq (s : Series) :
    is_id_field s =
      if (dropna s.values).length = 0 then false
      else if ¬ nameMatchesId s.name.toLower then false
      else if (if 0 < s.values.length then
            ((dropna s.values).dedup.length : ℚ) / (s.values.length : ℚ)
          else 0) < 9/10 then false
      else true := by
  simp only [is_id_field]
  split_ifs <;> rfl

/-- C2: any non-empty column whose lower-cased name matches an identifier
pattern and whose uniqueness ratio (distinct non-missing over total rows) is
at least 0.90 is detected ID, regardless of the UUID-form and numeric-range
sub-checks. -/
theorem claim_c2 (threshold : ℚ) (s : Series)
    (hne : dropna s.values ≠ [])
    (hname : nameMatchesId s.name.toLower = true)
    (hratio : 9/10 ≤ ((dropna s.values).dedup.length : ℚ) / (s.values.length : ℚ)) :
    detect_field_type threshold s = FieldType.ID := by
  have hlen : ¬ ((dropna s.values).length = 0) := by
    simpa [List.length_eq_zero] using hne
  have htot : 0 < s.values.length := by
    rcases hv : s.values with _ | ⟨a, l⟩
    · rw [hv] at hne
      exact absurd rfl hne
    · simp
  have hid : is_id_field s = true := by
    rw [is_id_field_eq, if_neg hlen, if_neg (by simp [hname]), if_pos htot,
      if_neg (not_lt.mpr hratio)]
  simp only [detect_field_type]
  rw [if_neg hlen, if_pos hid]

/-- C2 witness: a fully unique object column named `order_code`. -/
theorem claim_c2_witness :
    detect_field_type (1/10)
      ⟨"order_code", Dtype.dObject, [Value.vStr "a1", Value.vStr "b2"]⟩
      = FieldType.ID :=
  claim_c2 (1/10) _ (by decide) (by with_unfolding_all decide)
    (by with_unfolding_all decide)

lemma all_dedup_eq {α : Type} [DecidableEq α] (l : List α) (p : α → Bool) :
    l.dedup.all p = l.all p := by
  rw [Bool.eq_iff_iff]
  simp only [List.all_eq_true, List.mem_dedup]

lemma all_perm_eq {α : Type} {l l' : List α} (h : l.Perm l') (p : α → Bool) :
    l.all p = l'.all p := by
  rw [Bool.eq_iff_iff]
  simp only [List.all_eq_true]
  exact ⟨fun hh x hx => hh x (h.mem_iff.mpr hx),
    fun hh x hx => hh x (h.mem_iff.mp hx)⟩

lemma all_map_eq {α β : Type} (l : List α) (f : α → β) (p : β → Bool) :
    (l.map f).all p = l.all (fun v => p (f v)) := by
  induction l with
  | nil => rfl
  | cons a l ih => simp [ih]

lemma is_boolean_eq (s : Series) :
    is_boolean s =
      if (dropna s.values).length = 0 then false
      else if s.dtype = Dtype.dBool then true
      else if s.dtype = Dtype.dObject then
        (dropna s.values).all
          (fun v => boolPatterns.contains ((pyStr v).toLower.trim))
      else false := by
  simp only [is_boolean, all_dedup_eq, all_map_eq]

lemma is_datetime_small (s : Series) (hle : (dropna s.values).length ≤ 100) :
    is_datetime s =
      if s.dtype = Dtype.dDatetime then true
      else if s.dtype = Dtype.dObject then
        if (dropna s.values).length = 0 then false
        else decide ((4 : ℚ)/5 <
          ((dropna s.values).countP (fun v => can_parse_datetime v) : ℚ)
            / ((dropna s.values).length : ℚ))
      else false := by
  simp only [is_datetime]
  rw [min_eq_right hle, List.take_length]

/-- C6 amended: detection is invariant under permuting the column's values
whenever the column has at most 100 non-missing values (so the datetime
check's sample covers all of them); with more than 100 non-missing values
the sampled prefix can differ between orderings. -/
theorem claim_c6_amended (threshold : ℚ) (s t : Series)
    (hname : s.name = t.name) (hdtype : s.dtype = t.dtype)
    (hperm : s.values.Perm t.values)
    (hsmall : (dropna s.values).length ≤ 100) :
    detect_field_type threshold s = detect_field_type threshold t := by
  have hNN : (dropna s.values).Perm (dropna t.values) := hperm.filter _
  have h1 : (dropna s.values).length = (dropna t.values).length := hNN.length_eq
  have h2 : (dropna s.values).dedup.length = (dropna t.values).dedup.length :=
    hNN.dedup.length_eq
  have h3 : s.values.length = t.values.length := hperm.length_eq
  have hnum : ((s.values.map toNumeric).filterMap id).Perm
      ((t.values.map toNumeric).filterMap id) := (hperm.map _).filterMap _
  have hnuml := hnum.length_eq
  have hid : is_id_field s = is_id_field t := by
    rw [is_id_field_eq, is_id_field_eq, hname, h1, h2, h3]
  have hbool : is_boolean s = is_boolean t := by
    rw [is_boolean_eq, is_boolean_eq, hdtype, h1, all_perm_eq hNN]
  have hdt : is_datetime s = is_datetime t := by
    rw [is_datetime_small s hsmall, is_datetime_small t (h1 ▸ hsmall), hdtype,
      h1, hNN.countP_eq]
  have hint : is_integer s = is_integer t := by
    simp only [is_integer]
    rw [hdtype, hnuml, all_perm_eq hnum]
  have hflt : is_float s = is_float t := by
    simp only [is_float]
    rw [hdtype, hnuml, all_perm_eq hnum]
  have hcat : is_categorical threshold s = is_categorical threshold t := by
    simp only [is_categorical]
    rw [hdtype, h1, h2]
  simp only [detect_field_type]
  rw [h1, hid, hbool, hdt, hint, hflt, hcat]

/-- C6 witness: the amended statement on a concrete two-row column and its
swap. -/
theorem claim_c6_witness :
    detect_field_type (1/10)
        ⟨"c", Dtype.dObject, [Value.vStr "a", Value.vStr "b"]⟩
      = detect_field_type (1/10)
        ⟨"c", Dtype.dObject, [Value.vStr "b", Value.vStr "a"]⟩ :=
  claim_c6_amended (1/10) _ _ rfl rfl (List.Perm.swap _ _ _)
    (by with_unfolding_all decide)

/-- A 120-row textual column: 100 parseable date strings before 20
non-dates. -/
def c6colA : Series :=
  ⟨"obs", Dtype.dObject,
    List.replicate 100 (Value.vStr "2020-01-01")
      ++ List.replicate 20 (Value.vStr "x")⟩

/-- The same multiset of 120 values with the 20 non-dates first. -/
def c6colB : Series :=
  ⟨"obs", Dtype.dObject,
    List.replicate 20 (Value.vStr "x")
      ++ List.replicate 100 (Value.vStr "2020-01-01")⟩

/-- C6 counterexample: two orderings of the same 120-value multiset (same
name, same dtype) are detected differently — dates-first samples 100
parseable values (ratio 1 > 0.8, DATETIME), non-dates-first samples 20
non-dates and 80 dates (ratio 0.8, not > 0.8, falls to CATEGORICAL). -/
theorem claim_c6_counterexample :
    c6colA.name = c6colB.name ∧ c6colA.dtype = c6colB.dtype ∧
    c6colA.values.Perm c6colB.values ∧
    detect_field_type (1/10) c6colA = FieldType.DATETIME ∧
    detect_field_type (1/10) c6colB = FieldType.CATEGORICAL := by
  refine ⟨rfl, rfl, List.perm_append_comm, ?_, ?_⟩ <;>
    with_unfolding_all decide

/-- An analysis result of one datetime column whose sample holds a native
datetime value. -/
def dtSampleResult : AnalysisResult :=
  { file_path := "data.parquet"
    file_type := "parquet"
    total_rows := 1
    total_columns := 1
    fields := [{ name := "ts"
                 field_type := FieldType.DATETIME
                 total_count := 1
                 categorical_stats := none
                 numerical_stats := none
                 string_stats := none
                 datetime_stats := some ⟨some ⟨2024, 1, 1, 0, 0, 0⟩,
                   some ⟨2024, 1, 1, 0, 0, 0⟩, 1, 0, 0⟩
                 sample_values := [Value.vDatetime ⟨2024, 1, 1, 0, 0, 0⟩] }]
    analysis_timestamp := ⟨2024, 1, 2, 3, 4, 5⟩
    processing_time_seconds := 1/100 }

/-- The same record after the round trip: the sampled datetime comes back as
its string rendering. -/
def dtSampleResultLoaded : AnalysisResult :=
  { dtSampleResult with
      fields := [{ name := "ts"
                   field_type := FieldType.DATETIME
                   total_count := 1
                   categorical_stats := none
                   numerical_stats := none
                   string_stats := none
                   datetime_stats := some ⟨some ⟨2024, 1, 1, 0, 0, 0⟩,
                     some ⟨2024, 1, 1, 0, 0, 0⟩, 1, 0, 0⟩
                   sample_values := [Value.vStr "2024-01-01 00:00:00"] }] }

/-- C9 counterexample: serializing then deserializing an analysis result
whose sample values include a datetime does not reproduce the record — the
datetime sample value is stringified by the encoder and kept as a plain
string by the `Any`-typed decoder. -/
theorem claim_c9_counterexample :
    save_then_load dtSampleResult = some dtSampleResultLoaded ∧
    dtSampleResultLoaded ≠ dtSampleResult := by
  with_unfolding_all decide

/-- C9 amended: the JSON round trip reproduces the record field-by-field for
every analysis result whose timestamps are calendar-valid and whose sample
values contain no datetime value; a datetime sample value instead comes back
as its string rendering. -/
theorem claim_c9_amended (r : AnalysisResult)
    (ht : r.analysis_timestamp.valid)
    (hs : ∀ f ∈ r.fields, ∀ v ∈ f.sample_values, isDatetimeValue v = false)
    (hd : ∀ f ∈ r.fields, dtStatsValid f.datetime_stats) :
    save_then_load r = some r :=
  save_then_load_eq r ht hs hd

/-- A small analysis result with a categorical field and scalar samples. -/
def catSampleResult : AnalysisResult :=
  { file_path := "data.csv"
    file_type := "csv"
    total_rows := 3
    total_columns := 1
    fields := [{ name := "color"
                 field_type := FieldType.CATEGORICAL
                 total_count := 3
                 categorical_stats := some ⟨2, [⟨"red", 2, 200/3⟩, ⟨"blue", 1, 100/3⟩], 0, 0⟩
                 numerical_stats := none
                 string_stats := none
                 datetime_stats := none
                 sample_values := [Value.vStr "red", Value.vStr "blue"] }]
    analysis_timestamp := ⟨2024, 5, 6, 7, 8, 9⟩
    processing_time_seconds := 3/25 }

/-- C9 witness: the amended round trip at a concrete categorical result. -/
theorem claim_c9_witness :
    save_then_load catSampleResult = some catSampleResult :=
  claim_c9_amended catSampleResult (by decide)
    (by decide)
    (by
      intro f hf t htEq
      simp only [catSampleResult, List.mem_singleton] at hf
      subst hf
      exact absurd htEq (by simp))
